import Mathlib

/-!
Verification of the live document projection and change-feed synchronization
engine of the `yuno` repository (package `yuno`, change-feed watcher in
`saki/watch.py`, which is the version of `yuno/watch.py` present in the
sources).

The development shallowly embeds:
  * the wire/typed value universe and the two codecs
    (`yuno/encoder.py`: `YunoBSONEncoder.default`, `YunoTypeEncoder.default`),
  * the proxy objects and their remote operations
    (`yuno/object.py`, `yuno/objects/dict.py`, `yuno/objects/list.py`),
  * the change-feed watcher state machine (`saki/watch.py`, class `Watch`).

Machine conventions: Python values are the inductive `PVal`; Python `float`
only occurs as an opaque scalar (modelled as `Rat`, only ever passed through
or compared for equality); wall-clock times (`time.time()`) are modelled as
integers (whole seconds).  Fallible Python code returns `Except PyErr`.
-/

set_option maxRecDepth 4000

namespace Yuno

/-- Errors raised by the embedded Python code. -/
inductive PyErr where
  | keyError (key : String)
  | attributeError (msg : String)
  | typeError (msg : String)
  | valueError (msg : String)
  deriving Repr, DecidableEq

/-- Universe of Python/BSON values handled by the codec: the primitives listed
in `BSON_ENCODABLE` (encoder.py:41; `re.Pattern` and `bson.Regex` are merged
into one constructor, `int`/`bson.Int64` kept apart), containers, and the
`LazyObject` sentinel (encoder.py:15). -/
inductive PVal where
  | none
  | bool (b : Bool)
  | int (n : Int)
  | int64 (n : Int)
  | float (q : Rat)
  | str (s : String)
  | bytes (bs : List Nat)
  | datetime (ticks : Nat)
  | objectId (hex : String)
  | binary (bs : List Nat)
  | regex (pattern : String) (flags : Nat)
  | code (s : String)
  | dbref (coll : String) (ref : String)
  | list (xs : List PVal)
  | dict (kvs : List (String × PVal))
  | lazy (field : String)
  deriving Repr

mutual
/-- Python `==` on the embedded values: numbers compare across `bool`/`int`/
`Int64`/`float` numerically (CPython semantics), strings and byte strings by
content, containers element-wise, everything else only to itself. -/
def pyEq : PVal → PVal → Bool
  | .none, .none => true
  | .bool a, .bool b => a == b
  | .bool a, .int n => (if a then 1 else 0) == n
  | .bool a, .int64 n => (if a then 1 else 0) == n
  | .bool a, .float q => (if a then (1 : Rat) else 0) == q
  | .int n, .bool a => n == (if a then 1 else 0)
  | .int m, .int n => m == n
  | .int m, .int64 n => m == n
  | .int m, .float q => (m : Rat) == q
  | .int64 m, .bool a => m == (if a then 1 else 0)
  | .int64 m, .int n => m == n
  | .int64 m, .int64 n => m == n
  | .int64 m, .float q => (m : Rat) == q
  | .float q, .bool a => q == (if a then (1 : Rat) else 0)
  | .float q, .int n => q == (n : Rat)
  | .float q, .int64 n => q == (n : Rat)
  | .float p, .float q => p == q
  | .str a, .str b => a == b
  | .bytes a, .bytes b => a == b
  | .datetime a, .datetime b => a == b
  | .objectId a, .objectId b => a == b
  | .binary a, .binary b => a == b
  | .regex p f, .regex q g => p == q && f == g
  | .code a, .code b => a == b
  | .dbref c r, .dbref d s => c == d && r == s
  | .list xs, .list ys => pyEqList xs ys
  | .dict xs, .dict ys => pyEqDict xs ys
  | _, _ => false

/-- Element-wise Python equality of two lists. -/
def pyEqList : List PVal → List PVal → Bool
  | [], [] => true
  | x :: xs, y :: ys => pyEq x y && pyEqList xs ys
  | _, _ => false

/-- Entry-wise Python equality of two (insertion-ordered) dicts; Python dict
equality is order-insensitive, but the embedded documents are only ever
compared against documents produced in the same key order. -/
def pyEqDict : List (String × PVal) → List (String × PVal) → Bool
  | [], [] => true
  | (k, v) :: xs, (l, w) :: ys => k == l && pyEq v w && pyEqDict xs ys
  | _, _ => false
end

/-- Lookup in an insertion-ordered dict (Python `d[k]` / `d.get(k)` for the
string-keyed storages used by the proxies). -/
def dictFind : List (String × PVal) → String → Option PVal
  | [], _ => Option.none
  | (k, v) :: rest, key => if k == key then some v else dictFind rest key

/-- Python `d[k] = v`: overwrite in place (keeping the insertion position) or
append a new binding. -/
def dictSet : List (String × PVal) → String → PVal → List (String × PVal)
  | [], key, v => [(key, v)]
  | (k, w) :: rest, key, v =>
    if k == key then (key, v) :: rest else (k, w) :: dictSet rest key v

/-- Python `d.pop(k, ...)` / `del d[k]` on storage: drop the binding for
`key`.  A Python dict has unique keys, so in the assoc-list model this drops
every binding carrying the key. -/
def dictErase (d : List (String × PVal)) (key : String) : List (String × PVal) :=
  d.filter (fun kv => !(kv.1 == key))

/-- Python `d.update(e)`: apply `dictSet` for every binding of `e` in order. -/
def dictUpdate (d e : List (String × PVal)) : List (String × PVal) :=
  e.foldl (fun acc kv => dictSet acc kv.1 kv.2) d

mutual
/-- Embedding of `YunoBSONEncoder.default` (encoder.py:109): `None` and the
`BSON_ENCODABLE` primitives pass through unchanged, dicts (the only
"unpackable" values in this universe; `utils.unpack.is_unpackable` is not
under `src/`, the spec says maps are encoded key-wise) and iterables are
encoded recursively, and any other value falls back to `str(o)` — in this
universe only the `LazyObject` sentinel, whose `repr` is
`LazyObject(<field>)` (encoder.py:38).  File-like objects and proxy objects
as values are outside this universe. -/
def YunoBSONEncoder.default : PVal → PVal
  | .none => .none
  | .dict kvs => .dict (YunoBSONEncoder.encode_dict kvs)
  | .list xs => .list (YunoBSONEncoder.encode_iterable xs)
  | .lazy f => .str ("LazyObject(" ++ f ++ ")")
  | v => v

/-- Embedding of `YunoBSONEncoder.encode_dict` (encoder.py:77): keys are
already strings in this universe, values are encoded recursively. -/
def YunoBSONEncoder.encode_dict : List (String × PVal) → List (String × PVal)
  | [] => []
  | (k, v) :: rest => (k, YunoBSONEncoder.default v) :: YunoBSONEncoder.encode_dict rest

/-- Embedding of `YunoBSONEncoder.encode_iterable` (encoder.py:86). -/
def YunoBSONEncoder.encode_iterable : List PVal → List PVal
  | [] => []
  | x :: xs => YunoBSONEncoder.default x :: YunoBSONEncoder.encode_iterable xs
end

/-- Declared-type descriptors that `YunoTypeEncoder.default` (encoder.py:253)
is applied with in the embedded fragment: the `IMMUTABLES` classes
(encoder.py:140), the further `BSON_ENCODABLE` classes, `NoneType`,
`typing.Any`/`typing.AnyStr`, and the plain container classes `dict`/`list`.
Parameterized generics and `typing.Union` annotations are not used by any
embedded call site and are not modelled. -/
inductive PTy where
  | bool | int | int64 | float | str | bytes
  | datetime | objectId | binary | regex | code | dbref
  | noneTy | any | anyStr
  | dictTy | listTy
  deriving Repr, DecidableEq

/-- Python `type(o)` on the embedded values (`LazyObject` is mapped to `any`;
the branch that would use it is dead, since `default` returns early on
`LazyObject`, encoder.py:269). -/
def typeOf : PVal → PTy
  | .none => .noneTy
  | .bool _ => .bool
  | .int _ => .int
  | .int64 _ => .int64
  | .float _ => .float
  | .str _ => .str
  | .bytes _ => .bytes
  | .datetime _ => .datetime
  | .objectId _ => .objectId
  | .binary _ => .binary
  | .regex _ _ => .regex
  | .code _ => .code
  | .dbref _ _ => .dbref
  | .list _ => .listTy
  | .dict _ => .dictTy
  | .lazy _ => .any

/-- The `IMMUTABLES` tuple of encoder.py:140:
`(bool, bytes, int, bson.Int64, float, str, bson.Binary, bson.ObjectId,
bson.DBRef, bson.Code)` — note that `datetime` and `Regex` are NOT in it. -/
def immutableTys : List PTy :=
  [.bool, .bytes, .int, .int64, .float, .str, .binary, .objectId, .dbref, .code]

/-- Python truthiness `bool(o)` (total). -/
def pyTruthy : PVal → Bool
  | .none => false
  | .bool b => b
  | .int n => n != 0
  | .int64 n => n != 0
  | .float q => q != 0
  | .str s => s != ""
  | .bytes bs => !bs.isEmpty
  | .binary bs => !bs.isEmpty
  | .code s => s != ""
  | .list xs => !xs.isEmpty
  | .dict kvs => !kvs.isEmpty
  | _ => true

mutual
/-- Python `str(o)` for the embedded values.  The scalar cases are exact up to
the numeric-literal renderings that no theorem depends on (`float` and the
container renderings are schematic: only `str` on `str` and the `LazyObject`
repr are relied upon). -/
def pyStr : PVal → String
  | .none => "None"
  | .bool b => if b then "True" else "False"
  | .int n => toString n
  | .int64 n => toString n
  | .float q => toString q
  | .str s => s
  | .bytes bs => "b" ++ toString bs
  | .datetime t => "datetime(" ++ toString t ++ ")"
  | .objectId h => h
  | .binary bs => "Binary" ++ toString bs
  | .regex p f => "Regex(" ++ p ++ ", " ++ toString f ++ ")"
  | .code s => s
  | .dbref c r => "DBRef(" ++ c ++ ", " ++ r ++ ")"
  | .list xs => "[" ++ pyStrList xs ++ "]"
  | .dict kvs => "\x7b" ++ pyStrDict kvs ++ "\x7d"
  | .lazy f => "LazyObject(" ++ f ++ ")"

/-- Comma-separated renderings of list elements. -/
def pyStrList : List PVal → String
  | [] => ""
  | [x] => pyStr x
  | x :: xs => pyStr x ++ ", " ++ pyStrList xs

/-- Comma-separated renderings of dict entries. -/
def pyStrDict : List (String × PVal) → String
  | [] => ""
  | [(k, v)] => k ++ ": " ++ pyStr v
  | (k, v) :: kvs => k ++ ": " ++ pyStr v ++ ", " ++ pyStrDict kvs
end

/-- Python `int(s)` on a decimal string (sign plus digits), `none` when the
string does not parse (CPython raises `ValueError`). -/
def parseInt (s : String) : Option Int :=
  if s = "" then Option.none
  else if s.startsWith "-" then
    (if (s.drop 1).all Char.isDigit && s.drop 1 != "" then some (-(s.drop 1).toNat!) else Option.none)
  else if s.all Char.isDigit then some (s.toNat! : Int) else Option.none

/-- A single-argument Python constructor call `_type(o)`, as performed by
`YunoTypeEncoder.default` at encoder.py:288 and encoder.py:330.  The cases
follow CPython/`bson`:

* `bool(o)` is truthiness and never raises;
* `int(o)`/`Int64(o)` accept numbers and numeric strings/bytes;
* `float(o)` accepts numbers and integral numeric strings (fractional
  literals are not needed by any theorem and are treated as unparsed);
* `str(o)` never raises; `bytes(o)` accepts byte strings, `Binary`, a count,
  or a list of byte values;
* `datetime.datetime(o)` ALWAYS raises `TypeError`: its constructor needs
  `year, month, day`, a single positional argument is never valid;
* `ObjectId(o)` accepts an `ObjectId` or a 24-character hex string (the
  12-byte and `None` forms are not exercised and are mapped to errors);
* `Binary(o)` needs a byte sequence; `Regex(o)` needs `str`/`bytes` — in
  particular `Regex(Regex(...))` raises; `Code(o)` needs a string (`Code` is
  a `str` subclass, so `Code` instances are accepted);
* `DBRef(o)` ALWAYS raises: `DBRef(collection)` is missing the required
  `id` argument (and a non-`str` collection raises `TypeError`);
* `NoneType`, `typing.Any`/`AnyStr` and the container classes never reach
  this helper on the embedded paths. -/
def pyConstruct : PTy → PVal → Except PyErr PVal
  | .bool, o => .ok (.bool (pyTruthy o))
  | .int, .bool b => .ok (.int (if b then 1 else 0))
  | .int, .int n => .ok (.int n)
  | .int, .int64 n => .ok (.int n)
  | .int, .float q => .ok (.int (q.num.tdiv q.den))
  | .int, .str s =>
    (match parseInt s with
     | some n => .ok (.int n)
     | Option.none => .error (.valueError ("invalid literal for int() with base 10: " ++ s)))
  | .int, _ => .error (.typeError "int() argument must be a string, a bytes-like object or a real number")
  | .int64, .bool b => .ok (.int64 (if b then 1 else 0))
  | .int64, .int n => .ok (.int64 n)
  | .int64, .int64 n => .ok (.int64 n)
  | .int64, .float q => .ok (.int64 (q.num.tdiv q.den))
  | .int64, .str s =>
    (match parseInt s with
     | some n => .ok (.int64 n)
     | Option.none => .error (.valueError ("invalid literal for int() with base 10: " ++ s)))
  | .int64, _ => .error (.typeError "int() argument must be a string, a bytes-like object or a real number")
  | .float, .bool b => .ok (.float (if b then 1 else 0))
  | .float, .int n => .ok (.float n)
  | .float, .int64 n => .ok (.float n)
  | .float, .float q => .ok (.float q)
  | .float, .str s =>
    (match parseInt s with
     | some n => .ok (.float n)
     | Option.none => .error (.valueError ("could not convert string to float: " ++ s)))
  | .float, _ => .error (.typeError "float() argument must be a string or a real number")
  | .str, o => .ok (.str (pyStr o))
  | .bytes, .bytes bs => .ok (.bytes bs)
  | .bytes, .binary bs => .ok (.bytes bs)
  | .bytes, .bool b => .ok (.bytes (List.replicate (if b then 1 else 0) 0))
  | .bytes, .int n => if n ≥ 0 then .ok (.bytes (List.replicate n.toNat 0)) else .error (.valueError "negative count")
  | .bytes, .list xs =>
    if xs.all (fun x => match x with | .int n => 0 ≤ n && n < 256 | _ => false)
    then .ok (.bytes (xs.map (fun x => match x with | .int n => n.toNat | _ => 0)))
    else .error (.typeError "bytes() argument must be an iterable of ints")
  | .bytes, _ => .error (.typeError "cannot convert to bytes")
  | .datetime, _ => .error (.typeError "function missing required argument (datetime takes year, month, day)")
  | .objectId, .objectId h => .ok (.objectId h)
  | .objectId, .str s =>
    if s.length = 24 && s.all (fun c => c.isDigit || ("abcdefABCDEF".toList.contains c))
    then .ok (.objectId s)
    else .error (.valueError ("not a valid ObjectId: " ++ s))
  | .objectId, _ => .error (.typeError "id must be an instance of (bytes, str, ObjectId)")
  | .binary, .binary bs => .ok (.binary bs)
  | .binary, .bytes bs => .ok (.binary bs)
  | .binary, _ => .error (.typeError "data must be an instance of bytes")
  | .regex, .str p => .ok (.regex p 0)
  | .regex, .bytes bs => .ok (.regex ("b" ++ toString bs) 0)
  | .regex, _ => .error (.typeError "pattern must be an instance of str or bytes")
  | .code, .code s => .ok (.code s)
  | .code, .str s => .ok (.code s)
  | .code, _ => .error (.typeError "code must be an instance of str")
  | .dbref, _ => .error (.typeError "DBRef() missing 1 required positional argument: id")
  | .noneTy, _ => .error (.typeError "NoneType takes no arguments")
  | .any, o => .ok o
  | .anyStr, o => .ok (.str (pyStr o))
  | .dictTy, _ => .error (.typeError "unreachable: container classes are handled before the constructor call")
  | .listTy, _ => .error (.typeError "unreachable: container classes are handled before the constructor call")

/-- Characters-level worker for `splitDots`. -/
def splitDotsAux (cur : List Char) : List Char → List (List Char)
  | [] => [cur.reverse]
  | c :: rest => if c = '.' then cur.reverse :: splitDotsAux [] rest
                 else splitDotsAux (c :: cur) rest

/-- Python `s.split(".")` (computationally transparent replacement for
`String.splitOn "."`): `"a.b" -> ["a","b"]`, `"" -> [""]`, `"a." -> ["a",""]`. -/
def splitDots (s : String) : List String :=
  (splitDotsAux [] s.data).map (fun cs => String.mk cs)

/-- Characters-level worker for `strStartsWith`. -/
def strStartsWithAux : List Char → List Char → Bool
  | [], _ => true
  | _ :: _, [] => false
  | a :: as, b :: bs => a == b && strStartsWithAux as bs

/-- Python `s.startswith(pre)`. -/
def strStartsWith (s pre : String) : Bool :=
  strStartsWithAux pre.data s.data

/-- Python `s[n:]` on character counts (the embedded code only ever drops a
prefix it has just tested with `strStartsWith`, which is exactly
`str.removeprefix`). -/
def strDrop (s : String) (n : Nat) : String :=
  String.mk (s.data.drop n)

/-- Last dot-separated segment of a field path (`field.split(".")[-1]`). -/
def lastSegment (field : String) : String :=
  (splitDots field).getLastD ""

/-- Python `isinstance(o, LazyObject)` (encoder.py:269). -/
def isLazy : PVal → Bool
  | .lazy _ => true
  | _ => false

/-- The TypeError message Python reports for calling `YunoTypeEncoder.default`
with the keyword argument `collection`, which its signature (encoder.py:253:
`o, _type, field, previous, _id`) does not accept. -/
def collectionKwMsg : String :=
  "default() got an unexpected keyword argument 'collection'"

/-- The TypeError message Python reports for constructing a proxy class with
the keyword argument `previous`, which `YunoObject.__init__` (object.py:85:
`_id, collection, field, data`) does not accept. -/
def previousKwMsg : String :=
  "__init__() got an unexpected keyword argument 'previous'"

/-- Embedding of `YunoTypeEncoder.encode_dict` (encoder.py:163) as called on
an unparameterized `dict` declared type (so `typing.get_args` is empty,
encoder.py:187): the comprehension building the `data=` argument casts every
inner value first with declared type `get_annotations(CAST).get(key)` — which
is `None` for every data key, and a cast with no declared type never raises
in this value universe (scalars are returned by their own constructors or
as-is, `LazyObject`s are passed through, and nested containers reduce to the
very same `TypeError` below) — and then the proxy class is constructed as
`CAST(_id=..., previous=..., field=..., data=...)`; `YunoObject.__init__`
(object.py:85) has no parameter `previous`, so for every dict argument the
call raises `TypeError`.  A non-dict argument fails first in
`dict(o).items()`. -/
def YunoTypeEncoder.encode_dict (o : PVal) (_field : String) : Except PyErr PVal :=
  match o with
  | .dict _ => .error (.typeError previousKwMsg)
  | _ => .error (.typeError "cannot convert to a dictionary")

/-- Embedding of `YunoTypeEncoder.encode_iterable` (encoder.py:210) for an
unparameterized `list` declared type: the elements are cast with declared
type `get_annotations(CAST).get(index)` — `None` for every integer index, a
cast that never raises (see `YunoTypeEncoder.encode_dict`) — and then
`CAST(_id=..., previous=..., field=..., data=...)` raises `TypeError`
exactly as in `encode_dict` (encoder.py:235). -/
def YunoTypeEncoder.encode_iterable (o : PVal) (_field : String) : Except PyErr PVal :=
  match o with
  | .list _ => .error (.typeError previousKwMsg)
  | _ => .error (.typeError "object is not iterable")

/-- Embedding of `YunoTypeEncoder.default` (encoder.py:253) for the
declared-type universe `PTy`:

* a `LazyObject` is returned re-rooted at the last path segment
  (encoder.py:269-270);
* `_type` defaults to `type(o)` (encoder.py:274-275);
* `typing.Any` returns `o`, `typing.AnyStr` returns `str(o)`
  (encoder.py:277-280);
* the `isinstance(_type, IMMUTABLES)` normalisation (encoder.py:283) is a
  no-op here because `PTy` only contains classes, never instances;
* if `_type` is one of `IMMUTABLES` the result of `_type(o)` is returned,
  with ANY exception swallowed and execution falling through
  (encoder.py:286-290);
* `typing.get_origin` is `None` for every unparameterized `PTy`, so the
  origin/`Union` block (encoder.py:292-320) is skipped;
* subclasses of `dict` go to `encode_dict`, remaining iterables to
  `encode_iterable` (encoder.py:322-325) — of the types that reach this
  point only `dictTy` and `listTy` qualify (`str`/`bytes`, though iterable,
  returned at the `IMMUTABLES` step);
* with no declared type, `o` is returned as is (encoder.py:327-328);
* otherwise `_type(o)` is called, exceptions now propagating
  (encoder.py:330). -/
def YunoTypeEncoder.default (o : PVal) (given : Option PTy) (field : String) :
    Except PyErr PVal :=
  if isLazy o then .ok (.lazy (lastSegment field))
  else
    let t := given.getD (typeOf o)
    if t = .any then .ok o
    else if t = .anyStr then .ok (.str (pyStr o))
    else
      match (if immutableTys.contains t then some (pyConstruct t o) else Option.none) with
      | some (.ok v) => .ok v
      | _ =>
        if t = .dictTy then YunoTypeEncoder.encode_dict o field
        else if t = .listTy then YunoTypeEncoder.encode_iterable o field
        else if given = Option.none then .ok o
        else pyConstruct t o

/-! ## Remote document store

The collection handle behind `self.__collection__.__collection__` is a
`pymongo` collection; the operations the proxies invoke on it (point update
with `$set`/`$unset`/`$push`/`$pull`, `replace_one`, and the aggregation
pipelines of `__fetch_from_db__`/`__lazy_fetch__`) are modelled directly on a
store of `(_id, document)` pairs. -/

/-- The remote collection: documents keyed by `_id` (matched with Python/BSON
equality). -/
structure Remote where
  docs : List (PVal × PVal)
  deriving Repr

/-- Find the first document matching `{"_id": i}`. -/
def Remote.findDoc (db : Remote) (i : PVal) : Option PVal :=
  (db.docs.find? (fun kv => pyEq kv.1 i)).map (fun kv => kv.2)

/-- Apply `f` to the first document matching `{"_id": i}` (`update_one`
touches at most one document). -/
def Remote.mapDoc (db : Remote) (i : PVal) (f : PVal → PVal) : Remote :=
  ⟨go db.docs⟩
where
  go : List (PVal × PVal) → List (PVal × PVal)
    | [] => []
    | (k, d) :: rest => if pyEq k i then (k, f d) :: rest else (k, d) :: go rest

/-- Resolve a dot path inside a document (`a.b.c`), `none` when a segment is
missing or the intermediate value is not a document. -/
def resolvePath : PVal → List String → Option PVal
  | v, [] => some v
  | .dict kvs, seg :: rest =>
    (match dictFind kvs seg with
     | some v => resolvePath v rest
     | Option.none => Option.none)
  | _, _ :: _ => Option.none

/-- Write `v` at a dot path inside a document; missing intermediate documents
are created, a non-document intermediate is replaced by a fresh document
(MongoDB `$set` upsert-into-path behaviour on the paths the proxies use). -/
def setPath : PVal → List String → PVal → PVal
  | _, [], v => v
  | .dict kvs, seg :: rest, v =>
    .dict (dictSet kvs seg (setPath ((dictFind kvs seg).getD (.dict [])) rest v))
  | _, seg :: rest, v => .dict [(seg, setPath (.dict []) rest v)]

/-- Remove the value at a dot path inside a document (MongoDB `$unset`). -/
def unsetPath : PVal → List String → PVal
  | v, [] => v
  | .dict kvs, [seg] => .dict (dictErase kvs seg)
  | .dict kvs, seg :: rest =>
    (match dictFind kvs seg with
     | some v => .dict (dictSet kvs seg (unsetPath v rest))
     | Option.none => .dict kvs)
  | v, _ => v

/-- `update_one({"_id": i}, {"$set": {path: v}})`. -/
def Remote.updateOneSet (db : Remote) (i : PVal) (path : String) (v : PVal) : Remote :=
  db.mapDoc i (fun d => setPath d (splitDots path) v)

/-- `update_one({"_id": i}, {"$unset": {path: True}})`. -/
def Remote.updateOneUnset (db : Remote) (i : PVal) (path : String) : Remote :=
  db.mapDoc i (fun d => unsetPath d (splitDots path))

/-- `update_one({"_id": i}, {"$pull": {path: v}})`: remove every array element
equal to `v` at `path`; a no-op when the path is missing or not an array. -/
def Remote.updateOnePull (db : Remote) (i : PVal) (path : String) (v : PVal) : Remote :=
  db.mapDoc i (fun d =>
    match resolvePath d (splitDots path) with
    | some (.list xs) => setPath d (splitDots path) (.list (xs.filter (fun x => !pyEq x v)))
    | _ => d)

/-- `replace_one({"_id": i}, doc)`: replace the matched document's fields with
`doc` (the `_id` is immutable and kept); with `upsert` a missing document is
inserted. -/
def Remote.replaceOne (db : Remote) (i : PVal) (doc : PVal) (upsert : Bool) : Remote :=
  if (db.docs.find? (fun kv => pyEq kv.1 i)).isSome then
    db.mapDoc i (fun _ =>
      match doc with
      | .dict kvs => .dict (dictSet kvs "_id" i)
      | d => d)
  else if upsert then ⟨db.docs ++ [(i, doc)]⟩ else db

/-! ## Proxy objects -/

/-- State of a dict proxy (`YunoDict`): `__id__`, `__field__` (already
stripped of dots, object.py:102), `__storage__`, the `__lazy__` field list and
the declared-type annotations (`__annotations__`).  Class-level defaults
(`__post_verification__`, dict.py:60) are not used by any embedded scenario
and are not part of the state. -/
structure DictProxy where
  id : PVal
  field : String
  storage : List (String × PVal)
  lazyFields : List String
  annotations : List (String × PTy)
  deriving Repr

/-- Lookup of a declared type: `self.__annotations__.get(name, None)`. -/
def annFind : List (String × PTy) → String → Option PTy
  | [], _ => Option.none
  | (k, t) :: rest, key => if k == key then some t else annFind rest key

/-- The field path `"{}.{}".format(self.__field__, name)` used by
`__setitem__`/`__getitem__` (object.py:117, 135): note the unconditional dot,
which yields a leading dot for a root proxy (`field = ""`). -/
def formatField (field name : String) : String := field ++ "." ++ name

/-- The call `YunoTypeEncoder().default(value, _type=..., field=...,
collection=self.__collection__, _id=self.__id__)` as written at
object.py:117-118 and object.py:135-136 (and list.py passim): the keyword
argument `collection` does not exist in the signature of
`YunoTypeEncoder.default` (encoder.py:253 — the parameter is named
`previous`), so Python raises `TypeError` at the call itself, before the
encoder body runs.  The arguments are kept to document the intended call. -/
def typeEncoderCallWithCollectionKw (_value : PVal) (_t : Option PTy) (_field : String) :
    Except PyErr PVal :=
  .error (.typeError collectionKwMsg)

/-- Embedding of `YunoObject.__setitem__` (object.py:133-140): cast the value
(the call raises `TypeError`, see `typeEncoderCallWithCollectionKw`), then —
had the cast succeeded — issue
`update_one({"_id": ...}, {"$set": {"field.name": bson(value)}})` when
`update` is true, and finally write the cast value into local storage.
The result carries the exception (if any) together with the proxy and remote
state at the moment control leaves the method. -/
def YunoObject.setitem (st : DictProxy) (db : Remote) (name : String) (value : PVal)
    (update : Bool) : Except PyErr Unit × DictProxy × Remote :=
  match typeEncoderCallWithCollectionKw value (annFind st.annotations name)
      (formatField st.field name) with
  | .error e => (.error e, st, db)
  | .ok v =>
    let db' := if update then
        db.updateOneSet st.id (formatField st.field name) (YunoBSONEncoder.default v)
      else db
    (.ok (), { st with storage := dictSet st.storage name v }, db')

/-- Embedding of `YunoDict.__lazy_fetch__` (dict.py:25-35): aggregate
`$match {_id}`, `$replaceRoot` to `__field__` when non-empty, `$project` the
lazy field; an empty result raises `ValueError`, a result without the field
raises `KeyError` at `data[0][lazy_obj.field]`. -/
def YunoDict.lazy_fetch (st : DictProxy) (db : Remote) (lazyField : String) :
    Except PyErr PVal :=
  match db.findDoc st.id with
  | Option.none => .error (.valueError "the field does not exist in the document")
  | some doc =>
    (match (if st.field = "" then some doc else resolvePath doc (splitDots st.field)) with
     | Option.none => .error (.valueError "the field does not exist in the document")
     | some root =>
       (match resolvePath root (splitDots lazyField) with
        | some v => .ok v
        | Option.none => .error (.keyError lazyField)))

/-- Embedding of `YunoObject.__getitem__` (object.py:112-120): read from
storage (`KeyError` when absent); a stored `LazyObject` triggers
`__lazy_fetch__`, then the cast call of object.py:117 — which raises
`TypeError` because of the `collection` keyword — and only then would the
storage be updated and the value returned. -/
def YunoObject.getitem (st : DictProxy) (db : Remote) (name : String) :
    Except PyErr PVal × DictProxy :=
  match dictFind st.storage name with
  | Option.none => (.error (.keyError name), st)
  | some data =>
    if isLazy data then
      match YunoDict.lazy_fetch st db (match data with | .lazy f => f | _ => name) with
      | .error e => (.error e, st)
      | .ok raw =>
        (match typeEncoderCallWithCollectionKw raw (annFind st.annotations name)
            (formatField st.field name) with
         | .error e => (.error e, st)
         | .ok cast => (.ok cast, { st with storage := dictSet st.storage name cast }))
    else (.ok data, st)

/-- Embedding of `YunoDict.__fetch_from_db__` (dict.py:37-58): aggregate
`$match {_id}` (an empty result yields `{}`), `$replaceRoot` to `__field__`
when non-empty (a missing or non-document target makes the aggregation fail),
`$unset` of the `__lazy__` fields; the surviving entries are cast through
`YunoTypeEncoder.default` with their declared types — this call site
(dict.py:48-54) passes `previous=self`, which matches the encoder's
signature, so the real encoder runs — and finally
`data.update({field: LazyObject(field) for field in self.__lazy__})`
overwrites or appends a placeholder for every lazy field. -/
def YunoDict.fetch_from_db (st : DictProxy) (db : Remote) :
    Except PyErr (List (String × PVal)) :=
  match db.findDoc st.id with
  | Option.none => .ok []
  | some doc =>
    (match (if st.field = "" then some doc else resolvePath doc (splitDots st.field)) with
     | Option.none => .error (.valueError "replaceRoot: newRoot expression must evaluate to a document")
     | some root =>
       (match root with
        | .dict kvs =>
          let visible := kvs.filter (fun kv => !st.lazyFields.contains kv.1)
          (match castWithAnnotations st visible with
           | .error e => .error e
           | .ok cast =>
             .ok (dictUpdate cast (st.lazyFields.map (fun f => (f, PVal.lazy f)))))
        | _ => .error (.valueError "replaceRoot: newRoot expression must evaluate to a document")))
where
  /-- The comprehension of dict.py:48-54: each value cast with declared type
  `annotations.get(k)` at field path `field.k` (or `k` for a root proxy). -/
  castWithAnnotations (st : DictProxy) :
      List (String × PVal) → Except PyErr (List (String × PVal))
    | [] => .ok []
    | (k, v) :: rest =>
      (match YunoTypeEncoder.default v (annFind st.annotations k)
          (if st.field = "" then k else st.field ++ "." ++ k) with
       | .error e => .error e
       | .ok v' =>
         (match castWithAnnotations st rest with
          | .error e => .error e
          | .ok rest' => .ok ((k, v') :: rest')))

/-- Embedding of `YunoDict.pop` (dict.py:123-149):

1. `copied = self.__storage__.copy(); value = copied.pop(key, default)` —
   with no caller-supplied default the `Default` sentinel is popped and a
   `KeyError` is raised when the key is absent;
2. the remote write: `replace_one({"_id": ...}, bson(copied))` for a root
   proxy, otherwise `update_one(..., {"$set": {field: bson(copied)}})`;
3. `super().__setattr__("__storage__", copied)` — `super()` of `YunoDict` is
   `YunoObject`, which DOES define `__setattr__` (object.py:142), so this
   resolves to `YunoObject.__setattr__`, falls through its `__realtime__`
   test, and calls `self.__setitem__("__storage__", copied)` (object.py:150);
   that in turn starts with the encoder call carrying the `collection`
   keyword (object.py:135) and raises `TypeError` — the computed copy is
   never installed as the proxy's storage.  The `.ok` continuation spells
   out what `__setitem__` would do next had the call not raised. -/
def YunoDict.pop (st : DictProxy) (db : Remote) (key : String)
    (dflt : Option PVal) : Except PyErr PVal × DictProxy × Remote :=
  let copied := dictErase st.storage key
  match (dictFind st.storage key).orElse (fun _ => dflt) with
  | Option.none => (.error (.keyError key), st, db)
  | some value =>
    let db' := if st.field = "" then
        db.replaceOne st.id (YunoBSONEncoder.default (.dict copied)) false
      else
        db.updateOneSet st.id st.field (YunoBSONEncoder.default (.dict copied))
    (match typeEncoderCallWithCollectionKw (.dict copied)
        (annFind st.annotations "__storage__") (formatField st.field "__storage__") with
     | .error e => (.error e, st, db')
     | .ok v =>
       let db'' := db'.updateOneSet st.id (formatField st.field "__storage__")
         (YunoBSONEncoder.default v)
       (.ok value, { st with storage := dictSet st.storage "__storage__" v }, db''))

/-- Embedding of `YunoDict.to_dict` (dict.py:238-263): `data` is the storage
itself (`data = self.__storage__`, no copy), each excluded key is popped IN
PLACE from it, and the (pruned) storage is returned — through a fresh
camel-cased dict only when `camelCase` is set.  No collection operation
appears anywhere in the method, so it takes and touches no remote state. -/
def YunoDict.to_dict (st : DictProxy) (exclude : List String) (camelCase : Bool) :
    List (String × PVal) × DictProxy :=
  let pruned := exclude.foldl (fun d e => dictErase d e) st.storage
  let result := if camelCase then pruned.map (fun kv => (toCamelCase kv.1, kv.2)) else pruned
  (result, { st with storage := pruned })
where
  /-- Embedding of `utils.string.toCamelCase` (utils/string.py): all-upper
  strings pass through; otherwise split on underscores and spaces and
  capitalize every chunk but the first, preserving one leading underscore. -/
  toCamelCase (s : String) : String :=
    if s.toList.all (fun c => c.isUpper) then s
    else
      let hasUnderscore := s.startsWith "_"
      let body := if hasUnderscore then s.drop 1 else s
      let chunks := (body.splitOn "_").flatMap (fun t => t.splitOn " ")
      (if hasUnderscore then "_" else "") ++
        String.join (chunks.enum.map (fun ci =>
          if ci.1 = 0 then ci.2 else ci.2.capitalize))

/-! ## List proxy -/

/-- State of a list proxy (`YunoList`): `__id__`, `__field__`, `__storage__`. -/
structure ListProxy where
  id : PVal
  field : String
  storage : List PVal
  deriving Repr

/-- Python `list.remove(v)`: drop the first element `== v`, `none` when no
element matches (CPython raises `ValueError`). -/
def listRemoveFirst : List PVal → PVal → Option (List PVal)
  | [], _ => Option.none
  | x :: xs, v =>
    if pyEq x v then some xs
    else (listRemoveFirst xs v).map (fun ys => x :: ys)

/-- Embedding of `YunoList.remove` (list.py:203-228):

1. unconditionally issue `update_one(..., {"$pull": {field: bson(value)}})`;
2. `self.__storage__.remove(value)` — when the value is absent this raises
   `ValueError`, which the surrounding `try`/`except ValueError: pass`
   swallows, leaving local storage untouched (the idempotent no-op path);
3. when the value WAS present, the element is removed in place and the
   re-cast `[YunoTypeEncoder().default(element, ..., collection=...,
   ...) for ...]` (list.py:224) raises `TypeError` for any non-empty result
   (the `collection` keyword again); that exception is NOT a `ValueError`
   and propagates.  An empty re-cast list (storage had exactly the removed
   element) builds `[]` without calling the encoder, and
   `self.__storage__ = copied` then raises `TypeError` inside
   `YunoList.__setitem__` (`int("__storage__")` fails, list.py:317-325). -/
def YunoList.remove (st : ListProxy) (db : Remote) (value : PVal) :
    Except PyErr Unit × ListProxy × Remote :=
  let db' := db.updateOnePull st.id st.field (YunoBSONEncoder.default value)
  match listRemoveFirst st.storage value with
  | Option.none => (.ok (), st, db')
  | some removed =>
    (.error (.typeError (if removed.isEmpty then
        "list indices must be integers or slices, not str" else collectionKwMsg)),
      { st with storage := removed }, db')

/-! ## Live-sync loop (`YunoObject._watch_loop`, update events) -/

/-- Embedding of `YunoObject.__delitem__` (object.py:152-156) as called with
`update=False` from the watch loop: no remote operation, delete from storage
(`KeyError` when absent). -/
def YunoObject.delitem_noupdate (st : DictProxy) (name : String) :
    Except PyErr Unit × DictProxy :=
  if (dictFind st.storage name).isSome then
    (.ok (), { st with storage := dictErase st.storage name })
  else (.error (.keyError name), st)

/-- Embedding of the `UpdateEvent` handling of `YunoObject._watch_loop`
(object.py:211-229) for one event:

* for each `(key, value)` of `updated_fields` (object.py:212): skip unless
  `key.startswith(self.__field__)` and
  `key.removeprefix(self.__field__).count(".") <= 1`; rebind `key` to its
  last dot segment; `needed = value != self.__getitem__(key)` with only
  `KeyError` mapped to `needed = True` (any other exception — e.g. the lazy
  path's `TypeError` — propagates and kills the loop thread); when needed,
  `self.__setitem__(key, value, update=False)` — "already updated in the
  database" — whose first statement is the cast call that raises `TypeError`
  (object.py:135);
* then for each `key` of `removed_fields` (object.py:223): skip unless
  `key.startswith(self.__field__)`; `self.__delitem__(key, update=False)`
  with `KeyError` swallowed.

The result is the state at the moment the loop finishes or its exception
escapes. -/
def YunoObject.watch_loop_update (st : DictProxy) (db : Remote)
    (updatedFields : List (String × PVal)) (removedFields : List String) :
    Except PyErr Unit × DictProxy × Remote :=
  match applyUpdated st db updatedFields with
  | (.error e, st', db') => (.error e, st', db')
  | (.ok (), st', db') =>
    (match applyRemoved st' removedFields with
     | (r, st'') => (r, st'', db'))
where
  /-- The `updated_fields` loop (object.py:212-221). -/
  applyUpdated (st : DictProxy) (db : Remote) :
      List (String × PVal) → Except PyErr Unit × DictProxy × Remote
    | [] => (.ok (), st, db)
    | (key, value) :: rest =>
      if !strStartsWith key st.field ||
          ((strDrop key st.field.length).data.count '.') > 1 then
        applyUpdated st db rest
      else
        let key' := lastSegment key
        match YunoObject.getitem st db key' with
        | (.error (.keyError _), st') =>
          -- `needed = True`
          (match YunoObject.setitem st' db key' value false with
           | (.error e, st'', db') => (.error e, st'', db')
           | (.ok (), st'', db') => applyUpdated st'' db' rest)
        | (.error e, st') => (.error e, st', db)
        | (.ok current, st') =>
          if !pyEq value current then
            (match YunoObject.setitem st' db key' value false with
             | (.error e, st'', db') => (.error e, st'', db')
             | (.ok (), st'', db') => applyUpdated st'' db' rest)
          else applyUpdated st' db rest
  /-- The `removed_fields` loop (object.py:223-229); note it uses the FULL
  event key, not the last segment. -/
  applyRemoved (st : DictProxy) : List String → Except PyErr Unit × DictProxy
    | [] => (.ok (), st)
    | key :: rest =>
      if !strStartsWith key st.field then applyRemoved st rest
      else
        match YunoObject.delitem_noupdate st key with
        | (_, st') => applyRemoved st' rest

/-! ## Change-feed watcher (`saki/watch.py`, class `Watch`)

`Watch.__state__` (watch.py:140-144) is a CLASS attribute: one mutable dict
`{"token": ..., "time": ..., "count": ...}` created once at class definition
time.  Every instance mutates it item-wise (`self.__state__["token"] = ...`),
never rebinding the attribute, so ALL `Watch` instances of the process read
and write the same dict.  It is therefore modelled as a separate value
threaded explicitly and shared between watcher instances. -/

/-- The shared `Watch.__state__` dict: resume token, time of the last error,
number of errors in the window. -/
structure RState where
  token : Option Nat
  time : Int
  count : Nat
  deriving Repr, DecidableEq

/-- Per-instance state of a `Watch`: the ctor arguments `error_limit` and
`error_expiration` (watch.py:174-175; the float is modelled in whole
seconds), the `__closed__` flag (watch.py:179), whether the CURRENT
underlying `ChangeStream` has been closed, the `resume_after` entry of
`self.kwargs` (written on every reopen, watch.py:267), and `str(self.
__watching_object__)` as used in the fatal message. -/
structure WatchState where
  errorLimit : Nat
  errorExpiration : Int
  closed : Bool
  streamClosed : Bool
  resumeAfter : Option Nat
  target : String
  deriving Repr, DecidableEq

/-- One outcome of `self.__stream__.next()`: either a raw event (with the
stream's `resume_token` after it) or a transport error raised at wall-clock
time `now` (the `time.time()` read in the handler). -/
inductive Pull where
  | event (op : String) (token : Nat)
  | error (now : Int)
  deriving Repr, DecidableEq

/-- Result of a `Watch.next()` call. -/
inductive NextResult where
  | event (op : String)
  | stopIteration (msg : String)
  | fatal (msg : String)
  | pending
  deriving Repr, DecidableEq

/-- The message of watch.py:265-266:
`"More than {} errors have occured in {} seconds while watching for changes
in {}".format(self.error_limit, self.error_expiration, self.
__watching_object__)`. -/
def fatalMessage (w : WatchState) : String :=
  "More than " ++ toString w.errorLimit ++ " errors have occured in " ++
    toString w.errorExpiration ++ " seconds while watching for changes in " ++ w.target

/-- Reopening the underlying feed (watch.py:267-268): store the shared token
into `kwargs["resume_after"]` and replace `__stream__` with a fresh stream. -/
def reopenStream (w : WatchState) (token : Option Nat) : WatchState :=
  { w with resumeAfter := token, streamClosed := false }

/-- Embedding of `Watch.next` (watch.py:232-271) driven by a trace of stream
outcomes; the last component counts how the `return self.__next__()`
self-calls of watch.py:269 nest (the Python call-stack depth contributed by
the retries):

* a closed watcher raises `StopIteration` (watch.py:248-249);
* on a successful pull the shared `token` is updated (watch.py:252) and the
  classified event is returned;
* on a transport error (watch.py:253-269): `count += 1`; if
  `now - time > error_expiration` the window is reset (`time = now`,
  `count = 1`); otherwise `time = now` and, when `count >= error_limit`, the
  underlying stream is closed (exceptions from `close()` swallowed) and
  `ValueError(fatalMessage)` is raised — note `__closed__` is NOT set; in the
  two non-fatal branches the feed is reopened from the shared token and
  `next()` retries itself recursively;
* an exhausted trace stands for a still-blocking call (`pending`). -/
def Watch.next (sh : RState) (w : WatchState) (trace : List Pull) :
    NextResult × RState × WatchState × Nat :=
  if w.closed then (.stopIteration "Stream is closed", sh, w, 0)
  else match trace with
    | [] => (.pending, sh, w, 0)
    | .event op tok :: _ => (.event op, { sh with token := some tok }, w, 0)
    | .error now :: rest =>
      let shIncr : RState := { sh with count := sh.count + 1 }
      if now - sh.time > w.errorExpiration then
        let shReset : RState := { shIncr with time := now, count := 1 }
        let w' := reopenStream w shReset.token
        let res := Watch.next shReset w' rest
        (res.1, res.2.1, res.2.2.1, res.2.2.2 + 1)
      else
        let shTimed : RState := { shIncr with time := now }
        if shTimed.count ≥ w.errorLimit then
          (.fatal (fatalMessage w), shTimed, { w with streamClosed := true }, 0)
        else
          let w' := reopenStream w shTimed.token
          let res := Watch.next shTimed w' rest
          (res.1, res.2.1, res.2.2.1, res.2.2.2 + 1)

/-- Embedding of `Watch.resume` (watch.py:294-298): reopen from the shared
token and clear `__closed__`; the shared state itself is only read. -/
def Watch.resume (sh : RState) (w : WatchState) : WatchState :=
  { reopenStream w sh.token with closed := false }

/-! ## Fixtures -/

/-- A remote collection holding one document
`{_id: "doc1", name: {first: "John", last: "Doe"}, fruits: ["Apple", "Orange"]}`. -/
def sampleRemote : Remote :=
  ⟨[(.str "doc1", .dict [("_id", .str "doc1"),
      ("name", .dict [("first", .str "John"), ("last", .str "Doe")]),
      ("fruits", .list [.str "Apple", .str "Orange"])])]⟩

/-- The dict proxy for the sub-document at field `name` of `doc1`. -/
def nameProxy : DictProxy :=
  ⟨.str "doc1", "name", [("first", .str "John"), ("last", .str "Doe")], [], []⟩

/-- A live-synced proxy rooted at field path `a` of `doc1`, with empty local
storage. -/
def liveProxy : DictProxy := ⟨.str "doc1", "a", [], [], []⟩

/-- A remote collection holding the record `{_id: "a", hello: "world"}`. -/
def lazyRemote : Remote :=
  ⟨[(.str "a", .dict [("_id", .str "a"), ("hello", .str "world")])]⟩

/-- The whole-record proxy class for `lazyRemote` with `hello` declared lazy
(`__lazy__ = ["hello"]`, annotation `hello: str`), before materialization. -/
def lazyProxyInit : DictProxy := ⟨.str "a", "", [], ["hello"], [("hello", .str)]⟩

/-- The same proxy after materialization: the storage produced by
`__fetch_from_db__`. -/
def lazyProxy : DictProxy :=
  { lazyProxyInit with storage := [("_id", .str "a"), ("hello", .lazy "hello")] }

/-- The list proxy for the `fruits` array of `doc1`. -/
def fruitsProxy : ListProxy :=
  ⟨.str "doc1", "fruits", [.str "Apple", .str "Orange"]⟩

/-! ## C1, C3, C4: the broken write path -/

/-- C1: the claim says a field write first casts, then issues the remote
scoped `$set`, and only then updates local storage, and that structural
mutations commit the copied value to local storage only after the remote
operation returns.  The code cannot do either: `YunoObject.__setitem__`
raises `TypeError` at its very first statement (the cast call passes the
keyword `collection` to `YunoTypeEncoder.default`, whose parameter is named
`previous`), so a plain write `document["nick"] = "JD"` fails before any
remote or local mutation; and `YunoDict.pop` issues the remote `$set` of the
popped copy but then raises the same `TypeError` inside its commit
(`super().__setattr__("__storage__", copied)` resolves to
`YunoObject.__setattr__` → `__setitem__`), leaving local storage with the
popped key still present while the remote record has lost it. -/
theorem pop_updates_remote_but_never_commits_locally :
    YunoDict.pop nameProxy sampleRemote "first" Option.none =
      (.error (.typeError collectionKwMsg), nameProxy,
        ⟨[(.str "doc1", .dict [("_id", .str "doc1"),
            ("name", .dict [("last", .str "Doe")]),
            ("fruits", .list [.str "Apple", .str "Orange"])])]⟩) ∧
    YunoObject.setitem nameProxy sampleRemote "nick" (.str "JD") true =
      (.error (.typeError collectionKwMsg), nameProxy, sampleRemote) :=
  ⟨rfl, rfl⟩

/-- C3: the claim says an update event with `updatedFields = {"a.b": 5}` on a
live-synced proxy rooted at `"a"` sets `proxy["b"] = 5` locally without a
remote write.  The code instead dies inside the loop: the residual key
passes the path filter and `needed` is `True` (the key is absent), but
`self.__setitem__("b", 5, update=False)` raises `TypeError` at its cast call
(the `collection` keyword), so the loop thread terminates with local storage
still empty — the only part that holds is that no remote update is issued. -/
theorem watch_loop_update_raises_instead_of_applying :
    YunoObject.watch_loop_update liveProxy sampleRemote [("a.b", .int 5)] [] =
      (.error (.typeError collectionKwMsg), liveProxy, sampleRemote) :=
  rfl

/-- C4: materializing `{_id: "a", hello: "world"}` with `hello` declared lazy
does store a `LazyObject` placeholder under `hello` (first conjunct, as the
claim states), and the scoped fetch of the sub-path does return `"world"`
(second conjunct); but the first read `proxy.hello` raises `TypeError` at
the cast of object.py:117 (the `collection` keyword) instead of replacing
the placeholder and returning `"world"` (third conjunct: the error escapes
and the storage still holds the placeholder). -/
theorem lazy_field_placeholder_then_first_read_raises :
    YunoDict.fetch_from_db lazyProxyInit lazyRemote =
      .ok [("_id", .str "a"), ("hello", .lazy "hello")] ∧
    YunoDict.lazy_fetch lazyProxy lazyRemote "hello" = .ok (.str "world") ∧
    YunoObject.getitem lazyProxy lazyRemote "hello" =
      (.error (.typeError collectionKwMsg), lazyProxy) :=
  ⟨rfl, rfl, rfl⟩

/-! ## C5: the codec round-trip law -/

/-- Wire primitives: the values `YunoBSONEncoder.default` passes through
unchanged (its `BSON_ENCODABLE` tuple). -/
def wirePrim : PVal → Bool
  | .none | .bool _ | .int _ | .int64 _ | .float _ | .str _ | .bytes _
  | .datetime _ | .objectId _ | .binary _ | .regex _ _ | .code _ | .dbref _ _ => true
  | _ => false

/-- The primitives whose own constructor accepts their own instances, so that
`castForMemory(encodeForWire(v), type(v)) == v` actually holds: `bool`,
`int`, `Int64`, `float`, `str`, `bytes`, `ObjectId`, `Binary`, `Code`.
`datetime`, `Regex` and `DBRef` are excluded: their single-argument
constructor calls raise `TypeError` (see `pyConstruct`). -/
def roundtrippablePrim : PVal → Bool
  | .bool _ | .int _ | .int64 _ | .float _ | .str _ | .bytes _
  | .objectId _ | .binary _ | .code _ => true
  | _ => false

/-- C5 counterexample: for a date/time value — explicitly listed by the claim
among the supported primitives — encoding passes it through unchanged, but
casting the encoded value back with declared type `type(v)` raises
`TypeError`: `datetime` is not in `IMMUTABLES` (encoder.py:140), is not a
container, and the declared type is present, so `default` falls through to
`_type(o)` (encoder.py:330), i.e. `datetime.datetime(<datetime>)`, which is
never a valid constructor call.  The round-trip law is therefore false as
stated. -/
theorem roundtrip_fails_for_datetime :
    YunoBSONEncoder.default (.datetime 0) = .datetime 0 ∧
    YunoTypeEncoder.default (YunoBSONEncoder.default (.datetime 0))
        (some (typeOf (.datetime 0))) "" =
      .error (.typeError "function missing required argument (datetime takes year, month, day)") :=
  ⟨rfl, rfl⟩

/-- C5 (amended): every wire primitive (bool, integer, `Int64`, float,
string, byte sequence, date/time, `ObjectId`, `Binary`, `Regex`, `Code`,
`DBRef`) is passed through the wire encoding unchanged; the full round-trip
`castForMemory(encodeForWire(v), type(v)) == v` holds for the primitives
whose constructors accept their own instances — bool, integer, `Int64`,
float, string, byte sequence, `ObjectId`, `Binary` and `Code` — while for
date/time, `Regex` and `DBRef` values the cast raises `TypeError`. -/
theorem roundtrip_on_supported_primitives (v : PVal) (field : String)
    (hw : wirePrim v = true) :
    YunoBSONEncoder.default v = v ∧
    (roundtrippablePrim v = true →
      YunoTypeEncoder.default (YunoBSONEncoder.default v) (some (typeOf v)) field =
        .ok v) := by
  cases v <;>
    first
      | exact ⟨rfl, fun _ => rfl⟩
      | exact ⟨rfl, fun h => by simp [roundtrippablePrim] at h⟩
      | simp [wirePrim] at hw

/-- Witness for C5's amended theorem at `v = 5`. -/
theorem roundtrip_on_supported_primitives_witness :
    YunoBSONEncoder.default (.int 5) = .int 5 ∧
    YunoTypeEncoder.default (YunoBSONEncoder.default (.int 5))
        (some (typeOf (.int 5))) "f" = .ok (.int 5) := by
  obtain ⟨h1, h2⟩ := roundtrip_on_supported_primitives (.int 5) "f" rfl
  exact ⟨h1, h2 rfl⟩

/-! ## C8: removing an absent value from a list proxy -/

/-- The MongoDB-side condition under which
`update_one(..., {"$pull": {path: v}})` changes nothing: no document matching
the id has an array element equal to `v` at `path` (nor can a non-array or a
missing path be changed by `$pull`). -/
def pullRemovesNothing (db : Remote) (i : PVal) (path : String) (v : PVal) : Bool :=
  db.docs.all (fun kv =>
    !pyEq kv.1 i ||
    (match resolvePath kv.2 (splitDots path) with
     | some (.list xs) => xs.all (fun x => !pyEq x v)
     | _ => true))

theorem dictSet_find_self {kvs : List (String × PVal)} {k : String} {w : PVal}
    (h : dictFind kvs k = some w) : dictSet kvs k w = kvs := by
  induction kvs with
  | nil => simp [dictFind] at h
  | cons kv rest ih =>
    obtain ⟨a, b⟩ := kv
    by_cases hak : a = k
    · subst hak
      simp only [dictFind, beq_self_eq_true, if_true, Option.some.injEq] at h
      simp [dictSet, h]
    · have hk : (a == k) = false := by simpa using hak
      simp only [dictFind, hk, Bool.false_eq_true, if_false] at h
      simp [dictSet, hk, ih h]

theorem setPath_resolve {p : List String} {d v : PVal}
    (h : resolvePath d p = some v) : setPath d p v = d := by
  induction p generalizing d with
  | nil => simp [resolvePath] at h; simp [setPath, h]
  | cons seg rest ih =>
    cases d <;> simp only [resolvePath] at h <;> try cases h
    next kvs =>
      cases hf : dictFind kvs seg with
      | none => rw [hf] at h; simp at h
      | some w =>
        rw [hf] at h
        simp only [setPath, hf, Option.getD_some]
        rw [ih h, dictSet_find_self hf]

theorem updateOnePull_noop {db : Remote} {i : PVal} {path : String} {v : PVal}
    (h : pullRemovesNothing db i path v = true) :
    Remote.updateOnePull db i path v = db := by
  obtain ⟨docs⟩ := db
  simp only [pullRemovesNothing] at h
  simp only [Remote.updateOnePull, Remote.mapDoc, Remote.mk.injEq]
  induction docs with
  | nil => rfl
  | cons kv rest ih =>
    obtain ⟨k, d⟩ := kv
    simp only [List.all_cons, Bool.and_eq_true] at h
    obtain ⟨hhead, hrest⟩ := h
    simp only [Remote.mapDoc.go]
    by_cases hk : pyEq k i = true
    · rw [if_pos hk]
      rw [hk] at hhead
      simp only [Bool.not_true, Bool.false_or] at hhead
      cases hr : resolvePath d (splitDots path) with
      | none => simp [hr]
      | some root =>
        rw [hr] at hhead
        cases root <;> (simp [hr]; try rfl)
        next xs =>
          rw [List.filter_eq_self.mpr (by simpa using hhead)]
          rw [setPath_resolve hr]
    · rw [if_neg hk]
      simp [ih hrest]

theorem listRemoveFirst_eq_none {l : List PVal} {v : PVal}
    (h : l.all (fun x => !pyEq x v) = true) : listRemoveFirst l v = Option.none := by
  induction l with
  | nil => rfl
  | cons x xs ih =>
    simp only [List.all_cons, Bool.and_eq_true, Bool.not_eq_true'] at h
    simp [listRemoveFirst, h.1, ih (by simpa using h.2)]

/-- C8: for every sequence-like proxy and value `v` not present in it (nor, as
an array element, in the remote sub-tree at the proxy's path),
`remove(v)` completes without raising and leaves both the local storage and
the remote store unchanged: the remote `$pull` of a non-existent value is a
no-op and `list.remove`'s `ValueError` is swallowed by the
`except ValueError: pass` of list.py:227. -/
theorem remove_absent_value_is_noop (st : ListProxy) (db : Remote) (v : PVal)
    (habs : st.storage.all (fun x => !pyEq x v) = true)
    (hpull : pullRemovesNothing db st.id st.field (YunoBSONEncoder.default v) = true) :
    YunoList.remove st db v = (.ok (), st, db) := by
  unfold YunoList.remove
  rw [updateOnePull_noop hpull, listRemoveFirst_eq_none habs]

/-- Witness for C8 at `fruitsProxy.remove("Kiwi")` over `sampleRemote`. -/
theorem remove_absent_value_is_noop_witness :
    (fruitsProxy.storage.all (fun x => !pyEq x (.str "Kiwi")) = true) ∧
    (pullRemovesNothing sampleRemote fruitsProxy.id fruitsProxy.field
      (YunoBSONEncoder.default (.str "Kiwi")) = true) ∧
    YunoList.remove fruitsProxy sampleRemote (.str "Kiwi") =
      (.ok (), fruitsProxy, sampleRemote) :=
  ⟨rfl, rfl, remove_absent_value_is_noop fruitsProxy sampleRemote (.str "Kiwi") rfl rfl⟩

/-! ## C10: `to_dict` mutates the proxy's storage -/

theorem dictFind_erase_self (d : List (String × PVal)) (k : String) :
    dictFind (dictErase d k) k = Option.none := by
  induction d with
  | nil => rfl
  | cons kv rest ih =>
    obtain ⟨a, b⟩ := kv
    by_cases hak : a = k
    · subst hak
      simpa [dictErase, List.filter_cons] using ih
    · have hk : (a == k) = false := by simpa using hak
      simpa [dictErase, List.filter_cons, dictFind, hk] using ih

theorem dictFind_erase_other {k e : String} (d : List (String × PVal)) (h : k ≠ e) :
    dictFind (dictErase d e) k = dictFind d k := by
  induction d with
  | nil => rfl
  | cons kv rest ih =>
    obtain ⟨a, b⟩ := kv
    by_cases hae : a = e
    · subst hae
      have hak : (a == k) = false := by simpa using fun hh => h hh.symm
      simpa [dictErase, List.filter_cons, dictFind, hak] using ih
    · have h1 : (a == e) = false := by simpa using hae
      by_cases hak : a = k
      · subst hak
        simp [dictErase, List.filter_cons, dictFind, h1]
      · have h2 : (a == k) = false := by simpa using hak
        simpa [dictErase, List.filter_cons, dictFind, h1, h2] using ih

theorem foldl_erase_preserves_other {k : String} {ex : List String} (h : k ∉ ex) :
    ∀ d : List (String × PVal),
      dictFind (ex.foldl (fun d e => dictErase d e) d) k = dictFind d k := by
  induction ex with
  | nil => intro d; rfl
  | cons e rest ih =>
    intro d
    simp only [List.mem_cons, not_or] at h
    simpa [List.foldl_cons, ih h.2] using dictFind_erase_other d h.1

theorem foldl_erase_removes_mem {k : String} {ex : List String} (h : k ∈ ex) :
    ∀ d : List (String × PVal),
      dictFind (ex.foldl (fun d e => dictErase d e) d) k = Option.none := by
  induction ex with
  | nil => simp at h
  | cons e rest ih =>
    intro d
    by_cases hr : k ∈ rest
    · simpa [List.foldl_cons] using ih hr (dictErase d e)
    · have hk : k = e := by rcases List.mem_cons.mp h with h1 | h1; exact h1; exact absurd h1 hr
      subst hk
      simpa [List.foldl_cons, foldl_erase_preserves_other hr] using dictFind_erase_self d k

/-- C10: `to_dict` with an `exclude` list pops the excluded keys from the
proxy's OWN storage (`data = self.__storage__` is an alias, dict.py:254;
`data.pop(e, None)` mutates it in place, dict.py:260) and then returns that
very storage; the method performs no collection operation at all — its
embedding neither takes nor produces a `Remote` — so the remote record keeps
the excluded fields while the proxy no longer reports them: every excluded
key reads as absent afterwards, and every other key is untouched. -/
theorem to_dict_exclude_mutates_storage (st : DictProxy) (exclude : List String) :
    (YunoDict.to_dict st exclude false).1 = ((YunoDict.to_dict st exclude false).2).storage ∧
    ((YunoDict.to_dict st exclude false).2).id = st.id ∧
    ((YunoDict.to_dict st exclude false).2).field = st.field ∧
    (∀ k, k ∈ exclude →
      dictFind ((YunoDict.to_dict st exclude false).2).storage k = Option.none) ∧
    (∀ k, k ∉ exclude →
      dictFind ((YunoDict.to_dict st exclude false).2).storage k = dictFind st.storage k) := by
  refine ⟨rfl, rfl, rfl, ?_, ?_⟩
  · intro k hk
    simpa [YunoDict.to_dict] using foldl_erase_removes_mem hk st.storage
  · intro k hk
    simpa [YunoDict.to_dict] using foldl_erase_preserves_other hk st.storage

/-- Witness for C10: excluding `"first"` on the `name` proxy deletes it from
the proxy's storage. -/
theorem to_dict_exclude_mutates_storage_witness :
    ("first" ∈ ["first"]) ∧
    dictFind ((YunoDict.to_dict nameProxy ["first"] false).2).storage "first" =
      Option.none :=
  ⟨List.mem_singleton.mpr rfl,
    (to_dict_exclude_mutates_storage nameProxy ["first"]).2.2.2.1 "first"
      (List.mem_singleton.mpr rfl)⟩

/-! ## C2, C6, C7, C9: the change-feed watcher -/

/-- Substring containment (`needle in hay` for strings). -/
def strContains (hay needle : String) : Prop :=
  ∃ pre suf, pre ++ needle ++ suf = hay

theorem fatalMessage_contains_limit (w : WatchState) :
    strContains (fatalMessage w) (toString w.errorLimit) :=
  ⟨"More than ",
    " errors have occured in " ++ toString w.errorExpiration ++
      " seconds while watching for changes in " ++ w.target,
    by simp [fatalMessage, String.append_assoc]⟩

theorem fatalMessage_contains_window (w : WatchState) :
    strContains (fatalMessage w) (toString w.errorExpiration) :=
  ⟨"More than " ++ toString w.errorLimit ++ " errors have occured in ",
    " seconds while watching for changes in " ++ w.target,
    by simp [fatalMessage, String.append_assoc]⟩

theorem fatalMessage_contains_target (w : WatchState) :
    strContains (fatalMessage w) w.target :=
  ⟨"More than " ++ toString w.errorLimit ++ " errors have occured in " ++
      toString w.errorExpiration ++ " seconds while watching for changes in ",
    "",
    by simp [fatalMessage, String.append_assoc]⟩

/-- A watcher over `Collection(test)` with `error_limit = 2`,
`error_expiration = 60`. -/
def watchTwo : WatchState := ⟨2, 60, false, false, Option.none, "Collection(test)"⟩

/-- A watcher over `Collection(test)` with `error_limit = 3`,
`error_expiration = 60` (the limit `YunoObject._watch_loop` asks for is 10;
3 is the default of watch.py:149 — any value works here). -/
def watchThree : WatchState := ⟨3, 60, false, false, Option.none, "Collection(test)"⟩

/-- C2: on a transport error the watcher increments the shared error count;
when the time since the last recorded error exceeds `error_expiration` the
count is reset to `1` (and the feed is reopened and retried); otherwise,
when the incremented count has reached `error_limit`, the underlying feed is
closed and the fatal "too many errors" `ValueError` is raised, whose message
contains the error threshold, the window length and the identity of the
watched target, with the underlying stream left closed; below the limit the
feed is reopened from the shared token and `next()` retries. -/
theorem watch_error_window_and_fatal (sh : RState) (w : WatchState) (now : Int)
    (hcl : w.closed = false) :
    ((now - sh.time > w.errorExpiration) →
      Watch.next sh w [.error now] =
        (.pending, ⟨sh.token, now, 1⟩, reopenStream w sh.token, 1)) ∧
    ((¬ now - sh.time > w.errorExpiration) → sh.count + 1 ≥ w.errorLimit →
      Watch.next sh w [.error now] =
        (.fatal (fatalMessage w), ⟨sh.token, now, sh.count + 1⟩,
          { w with streamClosed := true }, 0) ∧
      strContains (fatalMessage w) (toString w.errorLimit) ∧
      strContains (fatalMessage w) (toString w.errorExpiration) ∧
      strContains (fatalMessage w) w.target) ∧
    ((¬ now - sh.time > w.errorExpiration) → sh.count + 1 < w.errorLimit →
      Watch.next sh w [.error now] =
        (.pending, ⟨sh.token, now, sh.count + 1⟩, reopenStream w sh.token, 1)) := by
  refine ⟨?_, ?_, ?_⟩
  · intro hwin
    simp [Watch.next, hcl, hwin, reopenStream]
  · intro hwin hlim
    refine ⟨?_, fatalMessage_contains_limit w, fatalMessage_contains_window w,
      fatalMessage_contains_target w⟩
    simp [Watch.next, hcl, hwin, hlim]
  · intro hwin hlim
    simp [Watch.next, hcl, hwin, Nat.not_le.mpr hlim, reopenStream]

/-- Witness for C2 (fatal branch): one prior error at time `0`, a second
error at time `10` with `error_limit = 2` raises the fatal condition and
closes the stream. -/
theorem watch_error_window_and_fatal_witness :
    Watch.next ⟨Option.none, 0, 1⟩ watchTwo [.error 10] =
      (.fatal (fatalMessage watchTwo), ⟨Option.none, 10, 2⟩,
        { watchTwo with streamClosed := true }, 0) :=
  ((watch_error_window_and_fatal ⟨Option.none, 0, 1⟩ watchTwo 10 rfl).2.1
    (by decide) (by decide)).1

/-- A burst of `n` transport errors, each arriving 61 seconds after the
previous one — one second past the 60-second error window, so each error
resets the window and triggers a reopen-and-retry. -/
def errorBurst : Int → Nat → List Pull
  | _, 0 => []
  | t, n + 1 => .error (t + 61) :: errorBurst (t + 61) n

theorem retry_depth_eq (n : Nat) :
    ∀ (t : Int) (sh : RState) (w : WatchState), sh.time = t → w.closed = false →
      w.errorExpiration = 60 →
      (Watch.next sh w (errorBurst t n)).2.2.2 = n := by
  induction n with
  | zero =>
    intro t sh w _ hc _
    simp [errorBurst, Watch.next, hc]
  | succ n ih =>
    intro t sh w ht hc he
    have hwin : (t + 61) - sh.time > w.errorExpiration := by rw [ht, he]; omega
    have hrec := ih (t + 61) ⟨sh.token, t + 61, 1⟩ (reopenStream w sh.token) rfl
      (by simp [reopenStream, hc]) (by simp [reopenStream, he])
    simp [errorBurst, Watch.next, hc, hwin, reopenStream] at hrec ⊢
    omega

/-- C6 counterexample: the claim — that the retry after a non-fatal transport
error is implemented iteratively, so that the call depth of `next()` is
bounded by a constant independent of the number of consecutive errors — is
false: watch.py:269 retries with `return self.__next__()`, a recursive
self-call, and for the burst `errorBurst` (errors spaced just past the
window, so the count keeps being reset to `1` and the limit never fires) the
nesting depth equals the number of errors, exceeding every constant. -/
theorem retry_depth_not_bounded :
    ¬ ∃ C : Nat, ∀ n : Nat,
      (Watch.next ⟨Option.none, 0, 0⟩ watchThree (errorBurst 0 n)).2.2.2 ≤ C := by
  rintro ⟨C, hC⟩
  have hd := retry_depth_eq (C + 1) 0 ⟨Option.none, 0, 0⟩ watchThree rfl rfl rfl
  have := hC (C + 1)
  rw [hd] at this
  omega

/-- C6 (amended): the retry after a non-fatal transport error is a recursive
self-call (`return self.__next__()`, watch.py:269), so the call depth of
`next()` grows linearly with the number of consecutive transport errors —
here exactly `n` for `n` errors spaced one second past the error window —
and is bounded only when the errors fall inside one window, where the error
limit turns the burst fatal. -/
theorem retry_depth_linear (n : Nat) :
    (Watch.next ⟨Option.none, 0, 0⟩ watchThree (errorBurst 0 n)).2.2.2 = n :=
  retry_depth_eq n 0 ⟨Option.none, 0, 0⟩ watchThree rfl rfl rfl

/-- C7 counterexample: the resume state is NOT reset on a successful
reconnect.  With `error_limit = 3`: two transport errors (times 10, 11),
then a successful reopened pull delivering an event — after which the shared
error count still reads `2`, not `0` — and a single further error at time 12
(inside the window) pushes the count to the limit and raises the fatal
condition, although only one error followed the successful reconnect.  Under
the claim the count would have restarted from zero and no fatal condition
could fire. -/
theorem error_count_survives_successful_reconnect :
    (Watch.next ⟨Option.none, 0, 0⟩ watchThree
        [.error 10, .error 11, .event "insert" 99]).1 = .event "insert" ∧
    (Watch.next ⟨Option.none, 0, 0⟩ watchThree
        [.error 10, .error 11, .event "insert" 99]).2.1 = ⟨some 99, 11, 2⟩ ∧
    (Watch.next ⟨some 99, 11, 2⟩
        (Watch.next ⟨Option.none, 0, 0⟩ watchThree
          [.error 10, .error 11, .event "insert" 99]).2.2.1
        [.error 12]).1 = .fatal (fatalMessage watchThree) :=
  ⟨rfl, rfl, rfl⟩

/-- C7 (amended): a successful `next()` updates ONLY the shared resume token —
the error count and the last-error time persist across a successful
reconnect — and the count is reset (to `1`) exactly when a later transport
error arrives more than `error_expiration` seconds after the last recorded
error; so a later burst separated from the old errors by more than the
window restarts the count, while errors inside the old window keep
accumulating toward the limit. -/
theorem success_updates_only_token (sh : RState) (w : WatchState) (op : String)
    (tok : Nat) (rest : List Pull) (hcl : w.closed = false) :
    Watch.next sh w (.event op tok :: rest) =
      (.event op, ⟨some tok, sh.time, sh.count⟩, w, 0) ∧
    (∀ now : Int, now - sh.time > w.errorExpiration →
      (Watch.next sh w [.error now]).2.1 = ⟨sh.token, now, 1⟩) := by
  constructor
  · simp [Watch.next, hcl]
  · intro now hwin
    simp [Watch.next, hcl, hwin, reopenStream]

/-- Witness for C7's amended theorem: a successful pull with token 42 leaves
the pre-existing count `2` and time `7` untouched. -/
theorem success_updates_only_token_witness :
    Watch.next ⟨some 5, 7, 2⟩ watchThree [.event "update" 42] =
      (.event "update", ⟨some 42, 7, 2⟩, watchThree, 0) :=
  (success_updates_only_token ⟨some 5, 7, 2⟩ watchThree "update" 42 [] rfl).1

/-- C9: all `Watch` instances share the single class-attribute dict
`__state__` (watch.py:140-144), modelled as the `RState` value threaded
through `Watch.next` for every watcher alike.  Consequently: a successful
`next()` on watcher A overwrites the shared resume token; a transport error
on any watcher increments the shared error count; a subsequent in-window
error on a DIFFERENT watcher B reads that shared count, so B can reach its
error limit on its first own error and go fatal; and below the limit B
reopens its feed from the token A wrote — the error limit and the resume
position of distinct watchers are not independent. -/
theorem watch_state_shared_across_watchers (sh : RState) (wA wB : WatchState)
    (op : String) (tok : Nat) (hA : wA.closed = false) (hB : wB.closed = false) :
    (Watch.next sh wA [.event op tok]).2.1 = ⟨some tok, sh.time, sh.count⟩ ∧
    (∀ now : Int, ¬ now - sh.time > wA.errorExpiration →
      (Watch.next sh wA [.error now]).2.1.count = sh.count + 1) ∧
    (∀ now : Int, ¬ now - sh.time > wB.errorExpiration → sh.count + 1 ≥ wB.errorLimit →
      (Watch.next ⟨some tok, sh.time, sh.count⟩ wB [.error now]).1 =
        .fatal (fatalMessage wB)) ∧
    (∀ now : Int, ¬ now - sh.time > wB.errorExpiration → sh.count + 1 < wB.errorLimit →
      (Watch.next ⟨some tok, sh.time, sh.count⟩ wB [.error now]).2.2.1.resumeAfter =
        some tok) := by
  refine ⟨?_, ?_, ?_, ?_⟩
  · simp [Watch.next, hA]
  · intro now hwin
    by_cases hlim : sh.count + 1 ≥ wA.errorLimit
    · simp [Watch.next, hA, hwin, hlim]
    · simp [Watch.next, hA, hwin, Nat.not_le.mpr (Nat.not_le.mp hlim), reopenStream]
  · intro now hwin hlim
    simp [Watch.next, hB, hwin, hlim]
  · intro now hwin hlim
    simp [Watch.next, hB, hwin, Nat.not_le.mpr hlim, reopenStream]

/-- Witness for C9: one error on watcher A (count becomes 1), a successful
pull on A writing token 7, then a single error on watcher B
(`error_limit = 2`) goes fatal because it reads the shared count. -/
theorem watch_state_shared_across_watchers_witness :
    (Watch.next ⟨Option.none, 0, 1⟩ watchThree [.event "insert" 7]).2.1 =
      ⟨some 7, 0, 1⟩ ∧
    (Watch.next ⟨some 7, 0, 1⟩ watchTwo [.error 3]).1 = .fatal (fatalMessage watchTwo) := by
  have h := watch_state_shared_across_watchers ⟨Option.none, 0, 1⟩ watchThree watchTwo
    "insert" 7 rfl rfl
  exact ⟨h.1, h.2.2.1 3 (by decide) (by decide)⟩

end Yuno
